import Mathlib

/-!
Shallow embedding of the two command-line clients of the `iot-jobs-cli`
repository (`src/cli/iot-jobs-cli.py` and `src/cli/iot-jobs-mongodb-cli.py`).

The hand-written code of the repository is glue: it reads one environment
variable, parses command-line options (some of which carry JSON strings),
builds a typed request object, hands it to a generated API client, and
formats the response or the error.  The embedding reproduces exactly that
layer:

* Python values obtained from `json.loads` are modelled by the inductive
  type `Json` (a JSON `null` is Python's `None`);
* each typed request model of the generated client is a Lean structure
  holding the values the CLI actually passes (the generated client's own
  validation and serialization are external collaborators and are not part
  of the repository);
* everything a command writes is recorded as a list of events, each tagged
  with the stream it goes to (`typer.echo`/`typer.secho` write to standard
  output unless called with `err=True`); colour and boldness attributes are
  presentation-only and are not recorded;
* the single network call a command body performs is recorded as a
  `ReqData` value in the `calls` field of the result, so "no network call
  was made" is `calls = []`;
* `json.loads` itself is Python standard-library code, so it enters the
  embedding as an explicit function argument `loads : String → Option Json`
  (`none` models a raised `json.JSONDecodeError`); theorems state their
  assumptions on `loads` at the concrete strings they use.
-/

namespace IotJobsCli

/-- Values produced by Python's `json.loads`: `null` is Python `None`,
objects are association lists in source order (a duplicated key keeps the
last occurrence, as in Python). -/
inductive Json where
  | null : Json
  | bool (b : Bool) : Json
  | num (n : Int) : Json
  | str (s : String) : Json
  | arr (elems : List Json) : Json
  | obj (fields : List (String × Json)) : Json

/-- Lookup in a Python dict built by `json.loads` from an object literal:
the last occurrence of a duplicated key wins. -/
def lookupLast (fields : List (String × Json)) (k : String) : Option Json :=
  match fields with
  | [] => none
  | (k2, v) :: rest =>
    match lookupLast rest k with
    | some v2 => some v2
    | none => if k2 = k then some v else none

/-- Python `d.get(k)` on a dict: `None` both when the key is absent and when
the stored value is JSON `null` (which `json.loads` turns into `None`). -/
def pyDictGet (fields : List (String × Json)) (k : String) : Option Json :=
  match lookupLast fields k with
  | some Json.null => none
  | some v => some v
  | none => none

/-- Python `d.get(k, default)` on a dict: the default applies only when the
key is absent (a stored `None` is returned as stored). -/
def pyDictGetD (fields : List (String × Json)) (k : String) (dflt : Json) : Json :=
  match lookupLast fields k with
  | some v => v
  | none => dflt

/-- Python type name of a `json.loads` result, as it appears in an
`AttributeError` message. -/
def pyTypeName : Json → String
  | Json.null => "NoneType"
  | Json.bool _ => "bool"
  | Json.num _ => "int"
  | Json.str _ => "str"
  | Json.arr _ => "list"
  | Json.obj _ => "dict"

/-- Exceptions the hand-written filter-building code can raise (they are
caught by the surrounding handler and reported as unexpected errors). -/
inductive PyError where
  | attributeError (tyName : String) : PyError
  | typeError (msg : String) : PyError
deriving Repr, DecidableEq

/-- Message text of a `PyError`, as interpolated into `f"Unexpected error: {e}"`. -/
def pyErrMsg : PyError → String
  | PyError.attributeError t => "\x27" ++ t ++ "\x27 object has no attribute \x27get\x27"
  | PyError.typeError m => m

/-- Python `v.get(k)` where `v` is an arbitrary `json.loads` value: only a
dict has a `.get` attribute; anything else raises `AttributeError`. -/
def pyGet (v : Json) (k : String) : Except PyError (Option Json) :=
  match v with
  | Json.obj fields => Except.ok (pyDictGet fields k)
  | other => Except.error (PyError.attributeError (pyTypeName other))

/-! ## Typed request models

These mirror the generated-client request models exactly as the CLI fills
them in.  The generated client's own field validation and serialization are
outside the repository; the structures record the values handed over. -/

/-- Request body of `devices create` (`PostDevicesRequest(imei=imei)`). -/
structure PostDevicesRequest where
  imei : String
deriving Repr, DecidableEq

/-- Sub-filter on the IMEI field: `ImeiFilter(var_in=filter["imei"].get("in"))`.
The generated model names the JSON field `in` as `var_in`. -/
structure ImeiFilter where
  var_in : Option Json := none

/-- Sub-filter on a timestamp range: `DateRangeFilter(gte=..., lte=...)`. -/
structure DateRangeFilter where
  gte : Option Json := none
  lte : Option Json := none

/-- Sub-filter on the last-seen timestamp:
`LastSeenAtFilter(is_empty=..., gte=..., lte=...)`. -/
structure LastSeenAtFilter where
  is_empty : Option Json := none
  gte : Option Json := none
  lte : Option Json := none

/-- Sub-filter on the job queue:
`JobQueueFilter(is_empty=..., contains_any=...)`. -/
structure JobQueueFilter where
  is_empty : Option Json := none
  contains_any : Option Json := none

/-- Composite device search filter; every sub-filter starts out unset
(`DeviceSearchFilter()`). -/
structure DeviceSearchFilter where
  imei : Option ImeiFilter := none
  created_at : Option DateRangeFilter := none
  updated_at : Option DateRangeFilter := none
  last_seen_at : Option LastSeenAtFilter := none
  job_queue : Option JobQueueFilter := none

/-- Request body of `devices search`; `PostDevicesSearchRequest()` leaves
the filter unset. -/
structure PostDevicesSearchRequest where
  filter : Option DeviceSearchFilter := none

/-- Request body of `collection create`
(`PostCollectionsRequest(collection_name=...)`). -/
structure PostCollectionsRequest where
  collection_name : String
deriving Repr, DecidableEq

/-- Request body of `index create`
(`PostCollectionsIndexRequest(key=key, unique=unique)`). -/
structure PostCollectionsIndexRequest where
  key : Json
  unique : Bool

/-- Request body of `validator update`
(`PutCollectionsValidatorRequest(validator=..., validation_level=...,
validation_action=...)`). -/
structure PutCollectionsValidatorRequest where
  validator : Json
  validation_level : String
  validation_action : String

/-- One request handed to a generated-client method, i.e. one network call.
Each constructor is one of the client methods the two CLIs invoke. -/
inductive ReqData where
  | postDevices (r : PostDevicesRequest) : ReqData
  | getDevice (imei : String) : ReqData
  | deleteDevice (imei : String) : ReqData
  | postDevicesSearch (r : PostDevicesSearchRequest) : ReqData
  | postCollections (r : PostCollectionsRequest) : ReqData
  | deleteCollection (name : String) : ReqData
  | getIndexes (name : String) : ReqData
  | postCollectionsIndex (name : String) (r : PostCollectionsIndexRequest) : ReqData
  | deleteIndex (name idxName : String) : ReqData
  | getValidator (name : String) : ReqData
  | putValidator (name : String) (r : PutCollectionsValidatorRequest) : ReqData
  | getValidatorSummary (name : String) : ReqData

/-! ## Output events and command results -/

/-- Stream a line is written to: `typer.echo`/`typer.secho` write to
standard output unless called with `err=True`. -/
inductive OutStream where
  | stdout : OutStream
  | stderr : OutStream
deriving Repr, DecidableEq

/-- Typed `ApiException` of the generated client: HTTP status, reason
phrase and optional error body.  The generated client stores the raw
response text in `body`; `print_error` immediately parses it with
`json.loads`, so the embedding carries the parsed JSON object (the claims
only concern well-formed object bodies; a non-JSON body would make
`print_error` itself raise). -/
structure ApiExceptionData where
  status : Nat
  reason : String
  body : Option (List (String × Json))

/-- Payload of one written line.  Payloads whose exact text is produced by
an external collaborator are kept structured instead of being rendered:
`jsonPretty n j` is `json.dumps(j, indent=n)`, `modelDump j` is a response
model's `model_dump_json(indent=4, exclude_none=False)`, `excText pfx e`
is an f-string embedding `str(e)` of the generated `ApiException`, and
`uncaughtJsonDecodeError s` is the interpreter traceback printed when the
`json.JSONDecodeError` raised by a bare `json.loads` callback on input `s`
escapes unhandled. -/
inductive Out where
  | text (s : String) : Out
  | jsonPretty (indent : Nat) (j : Json) : Out
  | modelDump (j : Json) : Out
  | excText (pfx : String) (e : ApiExceptionData) : Out
  | uncaughtJsonDecodeError (input : String) : Out

/-- One written line: the stream it goes to and its payload. -/
abbrev Event := OutStream × Out

/-- Observable outcome of one CLI process invocation: exit status, the
lines written in order, and the network calls made (in order). -/
structure CmdResult where
  exitCode : Nat
  events : List Event
  calls : List ReqData

/-- Outcome of the single generated-client call a command body performs:
the typed response on success, a typed `ApiException` on a non-2xx
response, or any other raised exception, carried as its message string. -/
inductive ApiOutcome (α : Type) where
  | success (resp : α) : ApiOutcome α
  | apiError (e : ApiExceptionData) : ApiOutcome α
  | otherError (msg : String) : ApiOutcome α

/-! ## Response presenter of `iot-jobs-cli.py` -/

/-- `print_success(message, model)`: a confirmation line to standard
output, then, when a model is given, its full dump (also to standard
output; neither `secho` call passes `err=True`). -/
def print_success (message : String) (model : Option Json) : List Event :=
  (OutStream.stdout, Out.text message) ::
    (match model with
     | none => []
     | some m => [(OutStream.stdout, Out.modelDump m)])

/-- Status line of `print_error`: `f"Error: {e.status} {e.reason}"`. -/
def statusLine (e : ApiExceptionData) : String :=
  "Error: " ++ toString e.status ++ " " ++ e.reason

/-- Structured error document printed by `print_error`:
`{"error": ErrorModel(**json.loads(e.body).get("error", {})).model_dump()}`.
The `ErrorModel` round trip (construction plus `model_dump`) is generated
client code and is modelled as the identity on the extracted object. -/
def errorBodyDump (body : List (String × Json)) : Json :=
  Json.obj [("error", pyDictGetD body "error" (Json.obj []))]

/-- `print_error(e)`: the status/reason line is written by a `secho` call
without `err=True`, hence to standard output; the structured error body,
when a body is present, is written with `err=True`, hence to the error
stream, as `json.dumps(..., indent=4)`. -/
def print_error (e : ApiExceptionData) : List Event :=
  (OutStream.stdout, Out.text (statusLine e)) ::
    (match e.body with
     | none => []
     | some b => [(OutStream.stderr, Out.jsonPretty 4 (errorBodyDump b))])

/-! ## Filter builder of `devices search`

The body of `search_devices` inspects the parsed `--filter` value with
five sequential `if key in filter:` blocks, each reading known sub-fields
with `.get` and leaving everything else alone.  Each block is one `apply*`
function; a raised `AttributeError` (`.get` on a non-dict sub-value)
aborts the body and is caught by `handle_api_call`. -/

/-- Block `if "imei" in filter:` of `search_devices`. -/
def applyImei (fields : List (String × Json)) (dsf : DeviceSearchFilter) :
    Except PyError DeviceSearchFilter :=
  match lookupLast fields "imei" with
  | none => Except.ok dsf
  | some sub =>
    match pyGet sub "in" with
    | Except.error e => Except.error e
    | Except.ok v => Except.ok { dsf with imei := some { var_in := v } }

/-- Block `if "created_at" in filter:` of `search_devices`. -/
def applyCreatedAt (fields : List (String × Json)) (dsf : DeviceSearchFilter) :
    Except PyError DeviceSearchFilter :=
  match lookupLast fields "created_at" with
  | none => Except.ok dsf
  | some sub =>
    match pyGet sub "gte" with
    | Except.error e => Except.error e
    | Except.ok g =>
      match pyGet sub "lte" with
      | Except.error e => Except.error e
      | Except.ok l => Except.ok { dsf with created_at := some { gte := g, lte := l } }

/-- Block `if "updated_at" in filter:` of `search_devices`. -/
def applyUpdatedAt (fields : List (String × Json)) (dsf : DeviceSearchFilter) :
    Except PyError DeviceSearchFilter :=
  match lookupLast fields "updated_at" with
  | none => Except.ok dsf
  | some sub =>
    match pyGet sub "gte" with
    | Except.error e => Except.error e
    | Except.ok g =>
      match pyGet sub "lte" with
      | Except.error e => Except.error e
      | Except.ok l => Except.ok { dsf with updated_at := some { gte := g, lte := l } }

/-- Block `if "last_seen_at" in filter:` of `search_devices`: all three
sub-fields are read with `.get` and set simultaneously, with no
mutual-exclusion check between `is_empty` and the range bounds. -/
def applyLastSeenAt (fields : List (String × Json)) (dsf : DeviceSearchFilter) :
    Except PyError DeviceSearchFilter :=
  match lookupLast fields "last_seen_at" with
  | none => Except.ok dsf
  | some sub =>
    match pyGet sub "is_empty" with
    | Except.error e => Except.error e
    | Except.ok ie =>
      match pyGet sub "gte" with
      | Except.error e => Except.error e
      | Except.ok g =>
        match pyGet sub "lte" with
        | Except.error e => Except.error e
        | Except.ok l =>
          Except.ok { dsf with last_seen_at := some { is_empty := ie, gte := g, lte := l } }

/-- Block `if "job_queue" in filter:` of `search_devices`. -/
def applyJobQueue (fields : List (String × Json)) (dsf : DeviceSearchFilter) :
    Except PyError DeviceSearchFilter :=
  match lookupLast fields "job_queue" with
  | none => Except.ok dsf
  | some sub =>
    match pyGet sub "is_empty" with
    | Except.error e => Except.error e
    | Except.ok ie =>
      match pyGet sub "contains_any" with
      | Except.error e => Except.error e
      | Except.ok ca => Except.ok { dsf with job_queue := some { is_empty := ie, contains_any := ca } }

/-- Full filter construction of `search_devices` for a dict filter:
the five blocks run in source order over an initially empty
`DeviceSearchFilter()`. -/
def buildDeviceSearchFilter (fields : List (String × Json)) :
    Except PyError DeviceSearchFilter :=
  Except.bind (applyImei fields {}) (fun d1 =>
  Except.bind (applyCreatedAt fields d1) (fun d2 =>
  Except.bind (applyUpdatedAt fields d2) (fun d3 =>
  Except.bind (applyLastSeenAt fields d3) (fun d4 =>
  applyJobQueue fields d4))))

/-- Recognized top-level filter keys, in the order the code tests them. -/
def searchFilterKeys : List String :=
  ["imei", "created_at", "updated_at", "last_seen_at", "job_queue"]

/-- Membership of the string `k` in a Python list obtained from
`json.loads`: `k` compares equal exactly to equal strings. -/
def jsonStrElem (k : String) : List Json → Bool
  | [] => false
  | Json.str s :: rest => s = k || jsonStrElem k rest
  | _ :: rest => jsonStrElem k rest

/-- Substring test, modelling Python's `needle in hay` on strings. -/
def charsContain (hay needle : List Char) : Bool :=
  match hay with
  | [] => needle.isEmpty
  | _ :: rest => needle.isPrefixOf hay || charsContain rest needle

/-- Behaviour of the five `if key in filter:` blocks when the parsed
`--filter` value is not a dict.  Python's `in` is a substring test on a
str and an element test on a list; a block whose test succeeds then
evaluates `filter[key]`, which raises `TypeError` for a string index on a
str or list; on any other type `in` itself raises `TypeError`.  When every
test fails, the body attaches an empty filter, as for a dict with no
recognized keys. -/
def buildFromNonDict (f : Json) : Except PyError DeviceSearchFilter :=
  match f with
  | Json.str s =>
    if searchFilterKeys.any (fun k => charsContain s.toList k.toList) then
      Except.error (PyError.typeError "string indices must be integers")
    else
      Except.ok {}
  | Json.arr xs =>
    if searchFilterKeys.any (fun k => jsonStrElem k xs) then
      Except.error (PyError.typeError "list indices must be integers or slices, not str")
    else
      Except.ok {}
  | other =>
    Except.error (PyError.typeError
      ("argument of type \x27" ++ pyTypeName other ++ "\x27 is not iterable"))

/-- Request construction of `search_devices`: with no filter the request
body stays `PostDevicesSearchRequest()`; with a parsed filter value the
composite filter is built and attached (unconditionally, even when it is
empty). -/
def buildSearchRequest (filter : Option Json) :
    Except PyError PostDevicesSearchRequest :=
  match filter with
  | none => Except.ok {}
  | some (Json.obj fields) =>
    Except.map (fun dsf => { filter := some dsf }) (buildDeviceSearchFilter fields)
  | some f =>
    Except.map (fun dsf => { filter := some dsf }) (buildFromNonDict f)

/-! ## Rendering helpers for f-string interpolation -/

mutual

/-- Python `repr`/`str` of a `json.loads` value, as interpolated into
f-strings such as the `index create` progress line. -/
def pyStr : Json → String
  | Json.null => "None"
  | Json.bool true => "True"
  | Json.bool false => "False"
  | Json.num n => toString n
  | Json.str s => "\x27" ++ s ++ "\x27"
  | Json.arr xs => "[" ++ pyStrElems xs ++ "]"
  | Json.obj fs => "\x7b" ++ pyStrFields fs ++ "\x7d"

def pyStrElems : List Json → String
  | [] => ""
  | [x] => pyStr x
  | x :: y :: rest => pyStr x ++ ", " ++ pyStrElems (y :: rest)

def pyStrFields : List (String × Json) → String
  | [] => ""
  | [(k, v)] => "\x27" ++ k ++ "\x27: " ++ pyStr v
  | (k, v) :: p :: rest => "\x27" ++ k ++ "\x27: " ++ pyStr v ++ ", " ++ pyStrFields (p :: rest)

end

/-- Python `str` of a bool, as interpolated into f-strings. -/
def pyBool (b : Bool) : String :=
  if b then "True" else "False"

/-- Python truthiness of a `json.loads` value (used by `if validator:` and
`if summary:`). -/
def jsonTruthy : Json → Bool
  | Json.null => false
  | Json.bool b => b
  | Json.num n => n != 0
  | Json.str s => s ≠ ""
  | Json.arr xs => !xs.isEmpty
  | Json.obj fs => !fs.isEmpty

/-! ## Subcommand bodies of `iot-jobs-cli.py` (devices CLI)

Each body is a function of its parsed arguments and of the outcome of the
one generated-client call it performs.  The `handle_api_call` decorator is
folded into each body: an `ApiException` becomes `print_error` plus exit
code 1, any other exception becomes the `Unexpected error:` line on the
error stream plus exit code 1, and a normal return exits 0. -/

/-- Body of `devices create <imei>` under `handle_api_call`. -/
def run_create_device (imei : String) (o : ApiOutcome Json) : CmdResult :=
  let pre : List Event :=
    [(OutStream.stdout, Out.text ("Attempting to create device with IMEI: " ++ imei))]
  let req := ReqData.postDevices { imei := imei }
  match o with
  | ApiOutcome.success resp =>
    { exitCode := 0,
      events := pre ++ print_success ("Device \x27" ++ imei ++ "\x27 created successfully.") (some resp),
      calls := [req] }
  | ApiOutcome.apiError e =>
    { exitCode := 1, events := pre ++ print_error e, calls := [req] }
  | ApiOutcome.otherError m =>
    { exitCode := 1,
      events := pre ++ [(OutStream.stderr, Out.text ("Unexpected error: " ++ m))],
      calls := [req] }

/-- Body of `devices get <imei>` under `handle_api_call`. -/
def run_get_device (imei : String) (o : ApiOutcome Json) : CmdResult :=
  let pre : List Event :=
    [(OutStream.stdout, Out.text ("Getting details for device with IMEI: " ++ imei))]
  let req := ReqData.getDevice imei
  match o with
  | ApiOutcome.success resp =>
    { exitCode := 0,
      events := pre ++ print_success ("Device \x27" ++ imei ++ "\x27:") (some resp),
      calls := [req] }
  | ApiOutcome.apiError e =>
    { exitCode := 1, events := pre ++ print_error e, calls := [req] }
  | ApiOutcome.otherError m =>
    { exitCode := 1,
      events := pre ++ [(OutStream.stderr, Out.text ("Unexpected error: " ++ m))],
      calls := [req] }

/-- Body of `devices delete <imei>` under `handle_api_call`. -/
def run_delete_device (imei : String) (o : ApiOutcome Unit) : CmdResult :=
  let pre : List Event :=
    [(OutStream.stdout, Out.text ("Attempting to delete device with IMEI: " ++ imei))]
  let req := ReqData.deleteDevice imei
  match o with
  | ApiOutcome.success _ =>
    { exitCode := 0,
      events := pre ++ print_success ("Device \x27" ++ imei ++ "\x27 deleted successfully.") none,
      calls := [req] }
  | ApiOutcome.apiError e =>
    { exitCode := 1, events := pre ++ print_error e, calls := [req] }
  | ApiOutcome.otherError m =>
    { exitCode := 1,
      events := pre ++ [(OutStream.stderr, Out.text ("Unexpected error: " ++ m))],
      calls := [req] }

/-- Body of `devices search [--filter JSON]` under `handle_api_call`: the
progress line is echoed first, then the request is built (a `PyError`
raised here is caught as an unexpected error and no call is made), then
the call is made and the result set is printed, device by device, or the
`No devices found.` notice is shown. -/
def run_search_devices (filter : Option Json) (o : ApiOutcome (List Json)) : CmdResult :=
  let pre : List Event := [(OutStream.stdout, Out.text "Searching for devices...")]
  match buildSearchRequest filter with
  | Except.error pe =>
    { exitCode := 1,
      events := pre ++ [(OutStream.stderr, Out.text ("Unexpected error: " ++ pyErrMsg pe))],
      calls := [] }
  | Except.ok req =>
    match o with
    | ApiOutcome.success devices =>
      { exitCode := 0,
        events := pre ++
          (if devices.isEmpty then
            [(OutStream.stdout, Out.text "No devices found.")]
          else
            print_success ("Found " ++ toString devices.length ++ " devices:") none ++
              devices.map (fun d => (OutStream.stdout, Out.modelDump d))),
        calls := [ReqData.postDevicesSearch req] }
    | ApiOutcome.apiError e =>
      { exitCode := 1, events := pre ++ print_error e, calls := [ReqData.postDevicesSearch req] }
    | ApiOutcome.otherError m =>
      { exitCode := 1,
        events := pre ++ [(OutStream.stderr, Out.text ("Unexpected error: " ++ m))],
        calls := [ReqData.postDevicesSearch req] }

/-! ## Subcommand bodies of `iot-jobs-mongodb-cli.py` (MongoDB CLI)

Each command wraps its body in an inline `try`/`except`: an `ApiException`
is echoed, with `err=True`, as one line embedding `str(e)`, then the
process exits 1; any other exception is echoed, with `err=True`, as
`An unexpected error occurred: {e}`, then the process exits 1.  The
progress line of each command is echoed before (`collection`) or inside
the `try` block, always before the call. -/

/-- Body of `collection create <name>`. -/
def run_create_collection (name : String) (o : ApiOutcome Unit) : CmdResult :=
  let pre : List Event :=
    [(OutStream.stdout, Out.text ("Attempting to create collection: " ++ name))]
  let req := ReqData.postCollections { collection_name := name }
  match o with
  | ApiOutcome.success _ =>
    { exitCode := 0,
      events := pre ++
        [(OutStream.stdout, Out.text ("Collection \x27" ++ name ++ "\x27 created successfully."))],
      calls := [req] }
  | ApiOutcome.apiError e =>
    { exitCode := 1,
      events := pre ++
        [(OutStream.stderr, Out.excText ("Error creating collection \x27" ++ name ++ "\x27: ") e)],
      calls := [req] }
  | ApiOutcome.otherError m =>
    { exitCode := 1,
      events := pre ++ [(OutStream.stderr, Out.text ("An unexpected error occurred: " ++ m))],
      calls := [req] }

/-- Body of `collection delete <name>`. -/
def run_delete_collection (name : String) (o : ApiOutcome Unit) : CmdResult :=
  let pre : List Event :=
    [(OutStream.stdout, Out.text ("Attempting to delete collection: " ++ name))]
  let req := ReqData.deleteCollection name
  match o with
  | ApiOutcome.success _ =>
    { exitCode := 0,
      events := pre ++
        [(OutStream.stdout, Out.text ("Collection \x27" ++ name ++ "\x27 deleted successfully."))],
      calls := [req] }
  | ApiOutcome.apiError e =>
    { exitCode := 1,
      events := pre ++
        [(OutStream.stderr, Out.excText ("Error deleting collection \x27" ++ name ++ "\x27: ") e)],
      calls := [req] }
  | ApiOutcome.otherError m =>
    { exitCode := 1,
      events := pre ++ [(OutStream.stderr, Out.text ("An unexpected error occurred: " ++ m))],
      calls := [req] }

/-- Body of `index get <collection>`. -/
def run_get_collection_indexes (name : String) (o : ApiOutcome (List Json)) : CmdResult :=
  let pre : List Event :=
    [(OutStream.stdout, Out.text ("Getting indexes for collection: " ++ name))]
  let req := ReqData.getIndexes name
  match o with
  | ApiOutcome.success idxs =>
    { exitCode := 0,
      events := pre ++
        (if idxs.isEmpty then
          [(OutStream.stdout,
            Out.text ("No indexes found for collection \x27" ++ name ++ "\x27."))]
        else
          (OutStream.stdout, Out.text ("Indexes for \x27" ++ name ++ "\x27:")) ::
            idxs.map (fun idx => (OutStream.stdout, Out.jsonPretty 4 idx))),
      calls := [req] }
  | ApiOutcome.apiError e =>
    { exitCode := 1,
      events := pre ++
        [(OutStream.stderr,
          Out.excText ("Error getting indexes for collection \x27" ++ name ++ "\x27: ") e)],
      calls := [req] }
  | ApiOutcome.otherError m =>
    { exitCode := 1,
      events := pre ++ [(OutStream.stderr, Out.text ("An unexpected error occurred: " ++ m))],
      calls := [req] }

/-- Body of `index create <collection> --key JSON --unique BOOL`, after the
`--key` callback has parsed the JSON string. -/
def run_create_collection_index (name : String) (key : Json) (unique : Bool)
    (o : ApiOutcome Unit) : CmdResult :=
  let pre : List Event :=
    [(OutStream.stdout,
      Out.text ("Attempting to create index on collection: " ++ name ++
        " with key: " ++ pyStr key ++ ", unique: " ++ pyBool unique))]
  let req := ReqData.postCollectionsIndex name { key := key, unique := unique }
  match o with
  | ApiOutcome.success _ =>
    { exitCode := 0,
      events := pre ++
        [(OutStream.stdout, Out.text ("Index created on \x27" ++ name ++ "\x27 successfully."))],
      calls := [req] }
  | ApiOutcome.apiError e =>
    { exitCode := 1,
      events := pre ++
        [(OutStream.stderr,
          Out.excText ("Error creating index on collection \x27" ++ name ++ "\x27: ") e)],
      calls := [req] }
  | ApiOutcome.otherError m =>
    { exitCode := 1,
      events := pre ++ [(OutStream.stderr, Out.text ("An unexpected error occurred: " ++ m))],
      calls := [req] }

/-- Body of `index delete <collection> <index_name>`. -/
def run_delete_collection_index (name idxName : String) (o : ApiOutcome Unit) : CmdResult :=
  let pre : List Event :=
    [(OutStream.stdout,
      Out.text ("Attempting to delete index \x27" ++ idxName ++ "\x27 from collection: " ++ name))]
  let req := ReqData.deleteIndex name idxName
  match o with
  | ApiOutcome.success _ =>
    { exitCode := 0,
      events := pre ++
        [(OutStream.stdout,
          Out.text ("Index \x27" ++ idxName ++ "\x27 deleted from \x27" ++ name ++ "\x27 successfully."))],
      calls := [req] }
  | ApiOutcome.apiError e =>
    { exitCode := 1,
      events := pre ++
        [(OutStream.stderr,
          Out.excText ("Error deleting index \x27" ++ idxName ++ "\x27 from collection \x27" ++
            name ++ "\x27: ") e)],
      calls := [req] }
  | ApiOutcome.otherError m =>
    { exitCode := 1,
      events := pre ++ [(OutStream.stderr, Out.text ("An unexpected error occurred: " ++ m))],
      calls := [req] }

/-- Body of `validator get <collection>`.  The response is the validator
document or `None`; a falsy document (absent or empty) prints the
not-found notice. -/
def run_get_collection_validator (name : String) (o : ApiOutcome (Option Json)) : CmdResult :=
  let pre : List Event :=
    [(OutStream.stdout, Out.text ("Getting validator for collection: " ++ name))]
  let req := ReqData.getValidator name
  match o with
  | ApiOutcome.success v =>
    { exitCode := 0,
      events := pre ++
        (match v with
         | some j =>
           if jsonTruthy j then
             [(OutStream.stdout, Out.text ("Validator for \x27" ++ name ++ "\x27:")),
              (OutStream.stdout, Out.jsonPretty 2 j)]
           else
             [(OutStream.stdout,
               Out.text ("No validator found for collection \x27" ++ name ++ "\x27."))]
         | none =>
           [(OutStream.stdout,
             Out.text ("No validator found for collection \x27" ++ name ++ "\x27."))]),
      calls := [req] }
  | ApiOutcome.apiError e =>
    { exitCode := 1,
      events := pre ++
        [(OutStream.stderr,
          Out.excText ("Error getting validator for collection \x27" ++ name ++ "\x27: ") e)],
      calls := [req] }
  | ApiOutcome.otherError m =>
    { exitCode := 1,
      events := pre ++ [(OutStream.stderr, Out.text ("An unexpected error occurred: " ++ m))],
      calls := [req] }

/-- Body of `validator update <collection> --validator JSON
[--validation-level L] [--validation-action A]`, after the `--validator`
callback has parsed the JSON string and the option defaults have been
applied: the three values are passed through unchanged into the request. -/
def run_update_collection_validator (name : String) (validator : Json)
    (validation_level validation_action : String) (o : ApiOutcome Unit) : CmdResult :=
  let pre : List Event :=
    [(OutStream.stdout, Out.text ("Updating validator for collection: " ++ name))]
  let req := ReqData.putValidator name
    { validator := validator,
      validation_level := validation_level,
      validation_action := validation_action }
  match o with
  | ApiOutcome.success _ =>
    { exitCode := 0,
      events := pre ++
        [(OutStream.stdout,
          Out.text ("Validator for \x27" ++ name ++ "\x27 updated successfully."))],
      calls := [req] }
  | ApiOutcome.apiError e =>
    { exitCode := 1,
      events := pre ++
        [(OutStream.stderr,
          Out.excText ("Error updating validator for collection \x27" ++ name ++ "\x27: ") e)],
      calls := [req] }
  | ApiOutcome.otherError m =>
    { exitCode := 1,
      events := pre ++ [(OutStream.stderr, Out.text ("An unexpected error occurred: " ++ m))],
      calls := [req] }

/-- Body of `validator summary <collection>`. -/
def run_get_collection_validator_summary (name : String)
    (o : ApiOutcome (Option Json)) : CmdResult :=
  let pre : List Event :=
    [(OutStream.stdout,
      Out.text ("Getting validator error summary for collection: " ++ name))]
  let req := ReqData.getValidatorSummary name
  match o with
  | ApiOutcome.success v =>
    { exitCode := 0,
      events := pre ++
        (match v with
         | some j =>
           if jsonTruthy j then
             [(OutStream.stdout,
               Out.text ("Validator error summary for \x27" ++ name ++ "\x27:")),
              (OutStream.stdout, Out.jsonPretty 4 j)]
           else
             [(OutStream.stdout,
               Out.text ("No validator error summary found for collection \x27" ++ name ++ "\x27."))]
         | none =>
           [(OutStream.stdout,
             Out.text ("No validator error summary found for collection \x27" ++ name ++ "\x27."))]),
      calls := [req] }
  | ApiOutcome.apiError e =>
    { exitCode := 1,
      events := pre ++
        [(OutStream.stderr,
          Out.excText ("Error getting validator error summary for collection \x27" ++
            name ++ "\x27: ") e)],
      calls := [req] }
  | ApiOutcome.otherError m =>
    { exitCode := 1,
      events := pre ++ [(OutStream.stderr, Out.text ("An unexpected error occurred: " ++ m))],
      calls := [req] }

/-! ## Command dispatch -/

/-- One parsed subcommand invocation of either CLI, with its parsed
arguments (JSON-bearing options already decoded by their callbacks,
option defaults already applied). -/
inductive Cmd where
  | devicesCreate (imei : String) : Cmd
  | devicesGet (imei : String) : Cmd
  | devicesDelete (imei : String) : Cmd
  | devicesSearch (filter : Option Json) : Cmd
  | collectionCreate (name : String) : Cmd
  | collectionDelete (name : String) : Cmd
  | indexGet (name : String) : Cmd
  | indexCreate (name : String) (key : Json) (unique : Bool) : Cmd
  | indexDelete (name idxName : String) : Cmd
  | validatorGet (name : String) : Cmd
  | validatorUpdate (name : String) (validator : Json)
      (validation_level validation_action : String) : Cmd
  | validatorSummary (name : String) : Cmd

/-- Response type of the one generated-client method each subcommand
calls. -/
def Cmd.Resp : Cmd → Type
  | Cmd.devicesCreate _ => Json
  | Cmd.devicesGet _ => Json
  | Cmd.devicesDelete _ => Unit
  | Cmd.devicesSearch _ => List Json
  | Cmd.collectionCreate _ => Unit
  | Cmd.collectionDelete _ => Unit
  | Cmd.indexGet _ => List Json
  | Cmd.indexCreate _ _ _ => Unit
  | Cmd.indexDelete _ _ => Unit
  | Cmd.validatorGet _ => Option Json
  | Cmd.validatorUpdate _ _ _ _ => Unit
  | Cmd.validatorSummary _ => Option Json

/-- Subcommands of the devices CLI (`iot-jobs-cli.py`), whose errors go
through `handle_api_call` and `print_error`. -/
def Cmd.isDevices : Cmd → Bool
  | Cmd.devicesCreate _ => true
  | Cmd.devicesGet _ => true
  | Cmd.devicesDelete _ => true
  | Cmd.devicesSearch _ => true
  | _ => false

/-- Dispatch of a parsed invocation to its subcommand body. -/
def runCmd : (c : Cmd) → ApiOutcome c.Resp → CmdResult
  | Cmd.devicesCreate imei, o => run_create_device imei o
  | Cmd.devicesGet imei, o => run_get_device imei o
  | Cmd.devicesDelete imei, o => run_delete_device imei o
  | Cmd.devicesSearch filter, o => run_search_devices filter o
  | Cmd.collectionCreate name, o => run_create_collection name o
  | Cmd.collectionDelete name, o => run_delete_collection name o
  | Cmd.indexGet name, o => run_get_collection_indexes name o
  | Cmd.indexCreate name key unique, o => run_create_collection_index name key unique o
  | Cmd.indexDelete name idxName, o => run_delete_collection_index name idxName o
  | Cmd.validatorGet name, o => run_get_collection_validator name o
  | Cmd.validatorUpdate name v lvl act, o => run_update_collection_validator name v lvl act o
  | Cmd.validatorSummary name, o => run_get_collection_validator_summary name o

/-! ## Startup and option callbacks -/

/-- Result of a process that dies during module import because
`API_CLIENT_HOST` is unset: the message on the error stream, exit status
1, nothing parsed, no network call. -/
def hostMissingResult : CmdResult :=
  { exitCode := 1,
    events := [(OutStream.stderr,
      Out.text "Error: API_CLIENT_HOST environment variable is not set.")],
    calls := [] }

/-- Module-level startup, identical in both CLIs: `os.getenv` after
`load_dotenv` (the environment argument is the environment as visible to
`os.getenv`, i.e. after any `.env` file has been loaded); an unset
`API_CLIENT_HOST` echoes the message with `err=True` and calls
`sys.exit(1)` before the typer application is even constructed. -/
def cliStart (getenv : String → Option String) : Except CmdResult String :=
  match getenv "API_CLIENT_HOST" with
  | none => Except.error hostMissingResult
  | some host => Except.ok host

/-- Full process run for a parsed invocation: startup, then command
parsing and the subcommand body. -/
def invoke (getenv : String → Option String) (c : Cmd) (o : ApiOutcome c.Resp) : CmdResult :=
  match cliStart getenv with
  | Except.error r => r
  | Except.ok _ => runCmd c o

/-- Callback of the `--filter` option of `devices search`:
`lambda x: parse_json_str(x) if x else None`.  A falsy value — the option
omitted (`None`) or an empty string — yields no filter without any parse
attempt; otherwise `parse_json_str` either returns the parsed JSON or
echoes `Error: Invalid JSON string: ...` with `err=True` and calls
`sys.exit(1)`. -/
def filter_callback (loads : String → Option Json) (x : Option String) :
    Except CmdResult (Option Json) :=
  match x with
  | none => Except.ok none
  | some s =>
    if s = "" then Except.ok none
    else
      match loads s with
      | some j => Except.ok (some j)
      | none =>
        Except.error
          { exitCode := 1,
            events := [(OutStream.stderr, Out.text ("Error: Invalid JSON string: " ++ s))],
            calls := [] }

/-- Callback of the `--key` and `--validator` options:
`lambda x: json.loads(x)`.  Nothing catches the `json.JSONDecodeError` a
malformed string raises, so it escapes the callback during argument
binding; the runtime reports the exception on the error stream and the
process exits with status 1 without the subcommand body ever running. -/
def json_loads_callback (loads : String → Option Json) (s : String) :
    Except CmdResult Json :=
  match loads s with
  | some j => Except.ok j
  | none =>
    Except.error
      { exitCode := 1,
        events := [(OutStream.stderr, Out.uncaughtJsonDecodeError s)],
        calls := [] }

/-- Full process run of `devices search --filter <raw>`: startup, then the
`--filter` callback at argument-binding time, then the body. -/
def invoke_search (getenv : String → Option String) (loads : String → Option Json)
    (rawFilter : Option String) (o : ApiOutcome (List Json)) : CmdResult :=
  match cliStart getenv with
  | Except.error r => r
  | Except.ok _ =>
    match filter_callback loads rawFilter with
    | Except.error r => r
    | Except.ok f => run_search_devices f o

/-- Full process run of `index create <name> --key <rawKey> --unique u`:
startup, then the `--key` callback at argument-binding time, then the
body. -/
def invoke_index_create (getenv : String → Option String) (loads : String → Option Json)
    (name rawKey : String) (unique : Bool) (o : ApiOutcome Unit) : CmdResult :=
  match cliStart getenv with
  | Except.error r => r
  | Except.ok _ =>
    match json_loads_callback loads rawKey with
    | Except.error r => r
    | Except.ok key => run_create_collection_index name key unique o

/-- Full process run of `validator update <name> --validator <rawValidator>
[--validation-level L] [--validation-action A]`: startup, the
`--validator` callback, the typer defaults (`strict` and `error`) for the
omitted options, then the body. -/
def invoke_validator_update (getenv : String → Option String) (loads : String → Option Json)
    (name rawValidator : String) (levelOpt actionOpt : Option String)
    (o : ApiOutcome Unit) : CmdResult :=
  match cliStart getenv with
  | Except.error r => r
  | Except.ok _ =>
    match json_loads_callback loads rawValidator with
    | Except.error r => r
    | Except.ok v =>
      run_update_collection_validator name v (levelOpt.getD "strict") (actionOpt.getD "error") o

/-! ## Concrete inputs for counterexamples and witnesses -/

/-- Environment with `API_CLIENT_HOST` set, as visible to `os.getenv`. -/
def demoGetenv : String → Option String :=
  fun k => if k = "API_CLIENT_HOST" then some "http://localhost:8000" else none

/-- Concrete stand-in for `json.loads` fixing its value on the few strings
the concrete scenarios use; every other string (in particular the empty
string and malformed inputs) raises, i.e. maps to `none`. -/
def demoLoads : String → Option Json :=
  fun s =>
    if s = "\x7b\x7d" then some (Json.obj [])
    else if s = "\x7b\"name\":\"ASCENDING\"\x7d" then
      some (Json.obj [("name", Json.str "ASCENDING")])
    else if s = "\x7b\"fieldA\": \x7b\"$type\": \"string\"\x7d\x7d" then
      some (Json.obj [("fieldA", Json.obj [("$type", Json.str "string")])])
    else none

/-- Typed 404 exception with a structured error body. -/
def demoE404 : ApiExceptionData :=
  { status := 404,
    reason := "Not Found",
    body := some [("error",
      Json.obj [("code", Json.num 404), ("message", Json.str "Device not found")])] }

/-- Environment with `API_CLIENT_HOST` unset. -/
def demoNoEnv : String → Option String :=
  fun _ => none

/-- Parsed `last_seen_at` sub-object supplying `is_empty` together with
`gte` (and no `lte`). -/
def demoLsaSub : List (String × Json) :=
  [("is_empty", Json.bool true), ("gte", Json.str "2024-01-01T00:00:00Z")]

/-- Parsed filter JSON whose only key is `last_seen_at`, mapped to
`demoLsaSub`. -/
def demoLsaFields : List (String × Json) :=
  [("last_seen_at", Json.obj demoLsaSub)]

/-- Device search filter the builder produces from `demoLsaFields`. -/
def demoLsaDsf : DeviceSearchFilter :=
  { last_seen_at := some
      { is_empty := some (Json.bool true),
        gte := some (Json.str "2024-01-01T00:00:00Z"),
        lte := none } }

/-- Parsed `last_seen_at` sub-object supplying `is_empty` together with
`lte` only (and no `gte`). -/
def demoLsaSub2 : List (String × Json) :=
  [("is_empty", Json.bool false), ("lte", Json.str "2024-06-30T23:59:59Z")]

/-- Parsed filter JSON whose only key is `last_seen_at`, mapped to
`demoLsaSub2`. -/
def demoLsaFields2 : List (String × Json) :=
  [("last_seen_at", Json.obj demoLsaSub2)]

/-- Device search filter the builder produces from `demoLsaFields2`. -/
def demoLsaDsf2 : DeviceSearchFilter :=
  { last_seen_at := some
      { is_empty := some (Json.bool false),
        gte := none,
        lte := some (Json.str "2024-06-30T23:59:59Z") } }

/-! ## Helper lemmas about the filter builder -/

/-- The `imei` block leaves the `last_seen_at` sub-filter untouched. -/
lemma applyImei_last_seen_at (fields : List (String × Json)) (d d' : DeviceSearchFilter)
    (h : applyImei fields d = Except.ok d') : d'.last_seen_at = d.last_seen_at := by
  unfold applyImei at h
  split at h
  · injection h with h
    subst h; rfl
  · split at h
    · exact Except.noConfusion h
    · injection h with h
      subst h; rfl

/-- The `created_at` block leaves the `last_seen_at` sub-filter untouched. -/
lemma applyCreatedAt_last_seen_at (fields : List (String × Json)) (d d' : DeviceSearchFilter)
    (h : applyCreatedAt fields d = Except.ok d') : d'.last_seen_at = d.last_seen_at := by
  unfold applyCreatedAt at h
  split at h
  · injection h with h
    subst h; rfl
  · split at h
    · exact Except.noConfusion h
    · split at h
      · exact Except.noConfusion h
      · injection h with h
        subst h; rfl

/-- The `updated_at` block leaves the `last_seen_at` sub-filter untouched. -/
lemma applyUpdatedAt_last_seen_at (fields : List (String × Json)) (d d' : DeviceSearchFilter)
    (h : applyUpdatedAt fields d = Except.ok d') : d'.last_seen_at = d.last_seen_at := by
  unfold applyUpdatedAt at h
  split at h
  · injection h with h
    subst h; rfl
  · split at h
    · exact Except.noConfusion h
    · split at h
      · exact Except.noConfusion h
      · injection h with h
        subst h; rfl

/-- The `job_queue` block leaves the `last_seen_at` sub-filter untouched. -/
lemma applyJobQueue_last_seen_at (fields : List (String × Json)) (d d' : DeviceSearchFilter)
    (h : applyJobQueue fields d = Except.ok d') : d'.last_seen_at = d.last_seen_at := by
  unfold applyJobQueue at h
  split at h
  · injection h with h
    subst h; rfl
  · split at h
    · exact Except.noConfusion h
    · split at h
      · exact Except.noConfusion h
      · injection h with h
        subst h; rfl

/-- When the filter has a `last_seen_at` key mapped to an object, the
`last_seen_at` block sets the sub-filter to the three `.get` results. -/
lemma applyLastSeenAt_obj (fields sub : List (String × Json)) (d : DeviceSearchFilter)
    (h : lookupLast fields "last_seen_at" = some (Json.obj sub)) :
    applyLastSeenAt fields d = Except.ok { d with last_seen_at := some { is_empty := pyDictGet sub "is_empty", gte := pyDictGet sub "gte", lte := pyDictGet sub "lte" } } := by
  simp [applyLastSeenAt, h, pyGet]

/-- C10: the last-seen-at sub-filter is built with no mutual-exclusion
check: for every filter JSON object whose `last_seen_at` key maps to an
object supplying `is_empty` together with `gte` and/or `lte`, every
successfully built filter carries a last-seen-at sub-filter in which all
supplied sub-fields — `is_empty` and whichever of the bounds are present —
are set simultaneously, each the unmodified pass-through of its `.get`,
and each absent sub-field is left unset. -/
theorem c10_last_seen_at_no_exclusion
    (fields sub : List (String × Json))
    (hlsa : lookupLast fields "last_seen_at" = some (Json.obj sub))
    (b : Json)
    (hie : pyDictGet sub "is_empty" = some b)
    (hbound : pyDictGet sub "gte" ≠ none ∨ pyDictGet sub "lte" ≠ none)
    (dsf : DeviceSearchFilter)
    (hbuild : buildDeviceSearchFilter fields = Except.ok dsf) :
    dsf.last_seen_at = some { is_empty := pyDictGet sub "is_empty", gte := pyDictGet sub "gte", lte := pyDictGet sub "lte" } ∧
    ∃ lsa, dsf.last_seen_at = some lsa ∧ lsa.is_empty = some b ∧
      lsa.gte = pyDictGet sub "gte" ∧ lsa.lte = pyDictGet sub "lte" ∧
      (lsa.gte ≠ none ∨ lsa.lte ≠ none) := by
  have main : dsf.last_seen_at = some { is_empty := pyDictGet sub "is_empty", gte := pyDictGet sub "gte", lte := pyDictGet sub "lte" } := by
    unfold buildDeviceSearchFilter at hbuild
    cases h1 : applyImei fields ({} : DeviceSearchFilter) with
    | error e1 =>
      rw [h1] at hbuild
      simp [Except.bind] at hbuild
    | ok d1 =>
      rw [h1] at hbuild
      simp only [Except.bind] at hbuild
      cases h2 : applyCreatedAt fields d1 with
      | error e2 =>
        rw [h2] at hbuild
        simp [Except.bind] at hbuild
      | ok d2 =>
        rw [h2] at hbuild
        simp only [Except.bind] at hbuild
        cases h3 : applyUpdatedAt fields d2 with
        | error e3 =>
          rw [h3] at hbuild
          simp [Except.bind] at hbuild
        | ok d3 =>
          rw [h3] at hbuild
          simp only [Except.bind] at hbuild
          rw [applyLastSeenAt_obj fields sub d3 hlsa] at hbuild
          simp only [Except.bind] at hbuild
          rw [applyJobQueue_last_seen_at fields _ dsf hbuild]
  exact ⟨main, ⟨_, main, hie, rfl, rfl, hbound⟩⟩

/-- Witness for C10 at two concrete filters, one for each arm of the
"and/or": `{"last_seen_at": {"is_empty": true, "gte":
"2024-01-01T00:00:00Z"}}` and `{"last_seen_at": {"is_empty": false,
"lte": "2024-06-30T23:59:59Z"}}`. -/
theorem c10_last_seen_at_no_exclusion_witness :
    (demoLsaDsf.last_seen_at = some { is_empty := pyDictGet demoLsaSub "is_empty", gte := pyDictGet demoLsaSub "gte", lte := pyDictGet demoLsaSub "lte" } ∧
      ∃ lsa, demoLsaDsf.last_seen_at = some lsa ∧ lsa.is_empty = some (Json.bool true) ∧
        lsa.gte = pyDictGet demoLsaSub "gte" ∧ lsa.lte = pyDictGet demoLsaSub "lte" ∧
        (lsa.gte ≠ none ∨ lsa.lte ≠ none)) ∧
    (demoLsaDsf2.last_seen_at = some { is_empty := pyDictGet demoLsaSub2 "is_empty", gte := pyDictGet demoLsaSub2 "gte", lte := pyDictGet demoLsaSub2 "lte" } ∧
      ∃ lsa, demoLsaDsf2.last_seen_at = some lsa ∧ lsa.is_empty = some (Json.bool false) ∧
        lsa.gte = pyDictGet demoLsaSub2 "gte" ∧ lsa.lte = pyDictGet demoLsaSub2 "lte" ∧
        (lsa.gte ≠ none ∨ lsa.lte ≠ none)) :=
  ⟨c10_last_seen_at_no_exclusion demoLsaFields demoLsaSub rfl (Json.bool true) rfl
      (Or.inl (fun h => Option.noConfusion h)) demoLsaDsf rfl,
    c10_last_seen_at_no_exclusion demoLsaFields2 demoLsaSub2 rfl (Json.bool false) rfl
      (Or.inr (fun h => Option.noConfusion h)) demoLsaDsf2 rfl⟩

/-- A dict filter with none of the five recognized keys still produces an
(empty) composite filter object. -/
lemma buildDeviceSearchFilter_no_keys (fields : List (String × Json))
    (h1 : lookupLast fields "imei" = none)
    (h2 : lookupLast fields "created_at" = none)
    (h3 : lookupLast fields "updated_at" = none)
    (h4 : lookupLast fields "last_seen_at" = none)
    (h5 : lookupLast fields "job_queue" = none) :
    buildDeviceSearchFilter fields = Except.ok {} := by
  simp [buildDeviceSearchFilter, applyImei, applyCreatedAt, applyUpdatedAt,
    applyLastSeenAt, applyJobQueue, h1, h2, h3, h4, h5, Except.bind]

/-- C1 counterexample: with `--filter` carrying the JSON object with no
recognized keys (here the concrete `\x7b\x7d`), the search request handed to the
client is NOT the request of the no-filter invocation: the former carries
an explicitly empty filter object, the latter no filter at all. -/
theorem c1_counterexample_requests_differ :
    demoLoads "\x7b\x7d" = some (Json.obj []) ∧
    (invoke_search demoGetenv demoLoads (some "\x7b\x7d") (ApiOutcome.success [])).calls ≠
      (invoke_search demoGetenv demoLoads none (ApiOutcome.success [])).calls := by
  refine ⟨rfl, ?_⟩
  have e1 : (invoke_search demoGetenv demoLoads (some "\x7b\x7d") (ApiOutcome.success [])).calls =
      [ReqData.postDevicesSearch { filter := some {} }] := rfl
  have e2 : (invoke_search demoGetenv demoLoads none (ApiOutcome.success [])).calls =
      [ReqData.postDevicesSearch { filter := none }] := rfl
  rw [e1, e2]
  intro h
  have h1 : ReqData.postDevicesSearch { filter := some {} } =
      ReqData.postDevicesSearch { filter := none } := by injection h
  have h2 : (some ({} : DeviceSearchFilter)) = none := by
    have h3 : ({ filter := some {} } : PostDevicesSearchRequest) = { filter := none } := by
      injection h1
    exact congrArg PostDevicesSearchRequest.filter h3
  exact Option.noConfusion h2

/-- C1 amended: a `--filter` JSON object containing none of the recognized
keys (`imei`, `created_at`, `updated_at`, `last_seen_at`, `job_queue`)
produces the search request carrying an explicitly empty filter object —
every sub-filter absent — while omitting `--filter` produces the request
with no filter object at all; the two requests differ only in that. -/
theorem c1_unrecognized_keys_empty_filter
    (fields : List (String × Json))
    (h1 : lookupLast fields "imei" = none)
    (h2 : lookupLast fields "created_at" = none)
    (h3 : lookupLast fields "updated_at" = none)
    (h4 : lookupLast fields "last_seen_at" = none)
    (h5 : lookupLast fields "job_queue" = none)
    (getenv : String → Option String) (host : String)
    (henv : getenv "API_CLIENT_HOST" = some host)
    (loads : String → Option Json) (s : String)
    (hs : loads s = some (Json.obj fields)) (hne : s ≠ "")
    (o : ApiOutcome (List Json)) :
    (invoke_search getenv loads (some s) o).calls =
      [ReqData.postDevicesSearch { filter := some {} }] ∧
    (invoke_search getenv loads none o).calls =
      [ReqData.postDevicesSearch { filter := none }] := by
  constructor
  · cases o <;>
      simp [invoke_search, cliStart, henv, filter_callback, hne, hs,
        run_search_devices, buildSearchRequest,
        buildDeviceSearchFilter_no_keys fields h1 h2 h3 h4 h5, Except.map]
  · cases o <;>
      simp [invoke_search, cliStart, henv, filter_callback,
        run_search_devices, buildSearchRequest]

/-- Witness for C1 at the empty JSON object and a successful empty search. -/
theorem c1_unrecognized_keys_empty_filter_witness :
    (invoke_search demoGetenv demoLoads (some "\x7b\x7d") (ApiOutcome.success [Json.null])).calls =
      [ReqData.postDevicesSearch { filter := some {} }] ∧
    (invoke_search demoGetenv demoLoads none (ApiOutcome.success [Json.null])).calls =
      [ReqData.postDevicesSearch { filter := none }] :=
  c1_unrecognized_keys_empty_filter [] rfl rfl rfl rfl rfl
    demoGetenv "http://localhost:8000" rfl demoLoads "\x7b\x7d" rfl (by decide)
    (ApiOutcome.success [Json.null])

/-- C6: the filter JSON `{"imei": {"in": ["123456789012345"]}}` produces a
composite filter whose IMEI sub-filter carries exactly that one-element
list, with the `created_at`, `updated_at`, `last_seen_at` and `job_queue`
sub-filters all absent. -/
theorem c6_imei_filter_exactly_one_value :
    buildSearchRequest (some (Json.obj [("imei", Json.obj [("in", Json.arr [Json.str "123456789012345"])])])) =
      Except.ok
        { filter := some
            { imei := some { var_in := some (Json.arr [Json.str "123456789012345"]) },
              created_at := none,
              updated_at := none,
              last_seen_at := none,
              job_queue := none } } := rfl

/-- C9: passing `--filter` with an empty string is treated exactly like
omitting `--filter`: the option callback returns no filter without
consulting the JSON parser (the whole run is independent of `loads`, which
may even reject every string), so no JSON-validation error occurs and the
empty search request is sent. -/
theorem c9_empty_filter_string_like_omitted
    (getenv : String → Option String) (host : String)
    (henv : getenv "API_CLIENT_HOST" = some host)
    (loads loads2 : String → Option Json)
    (o : ApiOutcome (List Json)) :
    filter_callback loads (some "") = Except.ok none ∧
    invoke_search getenv loads (some "") o = invoke_search getenv loads2 none o ∧
    (invoke_search getenv loads (some "") o).calls =
      [ReqData.postDevicesSearch { filter := none }] := by
  refine ⟨rfl, ?_, ?_⟩
  · simp [invoke_search, cliStart, henv, filter_callback]
  · cases o <;>
      simp [invoke_search, cliStart, henv, filter_callback,
        run_search_devices, buildSearchRequest]

/-- Witness for C9 with the demo environment, two different parse
functions and a successful empty search. -/
theorem c9_empty_filter_string_like_omitted_witness :
    filter_callback demoLoads (some "") = Except.ok none ∧
    invoke_search demoGetenv demoLoads (some "") (ApiOutcome.success []) =
      invoke_search demoGetenv (fun _ => none) none (ApiOutcome.success []) ∧
    (invoke_search demoGetenv demoLoads (some "") (ApiOutcome.success [])).calls =
      [ReqData.postDevicesSearch { filter := none }] :=
  c9_empty_filter_string_like_omitted demoGetenv "http://localhost:8000" rfl
    demoLoads (fun _ => none) (ApiOutcome.success [])

/-- C3 counterexample: the empty string is a malformed (non-parseable)
JSON string (`demoLoads "" = none` models the `json.JSONDecodeError` of
`json.loads("")`), yet passing it to `--filter` exits 0, makes the network
call with the empty search request, and reports nothing — because the
callback's falsy test short-circuits before parsing. -/
theorem c3_counterexample_empty_string_filter :
    demoLoads "" = none ∧
    invoke_search demoGetenv demoLoads (some "") (ApiOutcome.success []) =
      { exitCode := 0,
        events := [(OutStream.stdout, Out.text "Searching for devices..."),
          (OutStream.stdout, Out.text "No devices found.")],
        calls := [ReqData.postDevicesSearch { filter := none }] } :=
  ⟨rfl, rfl⟩

/-- C3 amended: for every malformed JSON string passed to `--key` or
`--validator`, and every non-empty malformed JSON string passed to
`--filter`, the process reports the error on the error stream and exits
with status 1 during argument binding — before any subcommand body runs,
without any network call and without any success output.  (The empty
string passed to `--filter` is the one non-parseable string exempted: the
callback treats it as an omitted filter; see C9.) -/
theorem c3_malformed_json_fails_locally
    (getenv : String → Option String) (host : String)
    (henv : getenv "API_CLIENT_HOST" = some host)
    (loads : String → Option Json) :
    (∀ s, s ≠ "" → loads s = none → ∀ o,
      invoke_search getenv loads (some s) o =
        { exitCode := 1,
          events := [(OutStream.stderr, Out.text ("Error: Invalid JSON string: " ++ s))],
          calls := [] }) ∧
    (∀ s, loads s = none → ∀ name unique o,
      invoke_index_create getenv loads name s unique o =
        { exitCode := 1,
          events := [(OutStream.stderr, Out.uncaughtJsonDecodeError s)],
          calls := [] }) ∧
    (∀ s, loads s = none → ∀ name lvlOpt actOpt o,
      invoke_validator_update getenv loads name s lvlOpt actOpt o =
        { exitCode := 1,
          events := [(OutStream.stderr, Out.uncaughtJsonDecodeError s)],
          calls := [] }) := by
  refine ⟨?_, ?_, ?_⟩
  · intro s hne hbad o
    simp [invoke_search, cliStart, henv, filter_callback, hne, hbad]
  · intro s hbad name unique o
    simp [invoke_index_create, cliStart, henv, json_loads_callback, hbad]
  · intro s hbad name lvlOpt actOpt o
    simp [invoke_validator_update, cliStart, henv, json_loads_callback, hbad]

/-- Witness for C3 on concrete malformed strings for all three options. -/
theorem c3_malformed_json_fails_locally_witness :
    invoke_search demoGetenv demoLoads (some "not json") (ApiOutcome.success []) =
      { exitCode := 1,
        events := [(OutStream.stderr, Out.text ("Error: Invalid JSON string: " ++ "not json"))],
        calls := [] } ∧
    invoke_index_create demoGetenv demoLoads "jobs" "\x7bbad" true (ApiOutcome.success ()) =
      { exitCode := 1,
        events := [(OutStream.stderr, Out.uncaughtJsonDecodeError "\x7bbad")],
        calls := [] } ∧
    invoke_validator_update demoGetenv demoLoads "jobs" "\x7bbad" none none (ApiOutcome.success ()) =
      { exitCode := 1,
        events := [(OutStream.stderr, Out.uncaughtJsonDecodeError "\x7bbad")],
        calls := [] } :=
  ⟨(c3_malformed_json_fails_locally demoGetenv "http://localhost:8000" rfl demoLoads).1
      "not json" (by decide) rfl (ApiOutcome.success []),
    (c3_malformed_json_fails_locally demoGetenv "http://localhost:8000" rfl demoLoads).2.1
      "\x7bbad" rfl "jobs" true (ApiOutcome.success ()),
    (c3_malformed_json_fails_locally demoGetenv "http://localhost:8000" rfl demoLoads).2.2
      "\x7bbad" rfl "jobs" none none (ApiOutcome.success ())⟩

/-- C5: with `API_CLIENT_HOST` unset, every run of either CLI — whatever
command, options or server behaviour follow — is the fixed
`hostMissingResult`: the message on the error stream, exit status 1, no
events from command parsing and no network call; with the variable set,
startup proceeds to command parsing and the invocation behaves as the
dispatched subcommand. -/
theorem c5_missing_host_fails_fast
    (getenv getenv2 : String → Option String) (host : String)
    (hmiss : getenv "API_CLIENT_HOST" = none)
    (hset : getenv2 "API_CLIENT_HOST" = some host) :
    (∀ (c : Cmd) (o : ApiOutcome c.Resp), invoke getenv c o = hostMissingResult) ∧
    (∀ loads rawFilter o, invoke_search getenv loads rawFilter o = hostMissingResult) ∧
    (∀ loads name rawKey unique o,
      invoke_index_create getenv loads name rawKey unique o = hostMissingResult) ∧
    (∀ loads name rawV lvlOpt actOpt o,
      invoke_validator_update getenv loads name rawV lvlOpt actOpt o = hostMissingResult) ∧
    (∀ (c : Cmd) (o : ApiOutcome c.Resp), invoke getenv2 c o = runCmd c o) := by
  refine ⟨?_, ?_, ?_, ?_, ?_⟩
  · intro c o
    simp [invoke, cliStart, hmiss]
  · intro loads rawFilter o
    simp [invoke_search, cliStart, hmiss]
  · intro loads name rawKey unique o
    simp [invoke_index_create, cliStart, hmiss]
  · intro loads name rawV lvlOpt actOpt o
    simp [invoke_validator_update, cliStart, hmiss]
  · intro c o
    simp [invoke, cliStart, hset]

/-- Witness for C5: a concrete empty environment kills a concrete
invocation of each pipeline, and the demo environment lets one through. -/
theorem c5_missing_host_fails_fast_witness :
    invoke demoNoEnv (Cmd.devicesGet "123456789012345") (ApiOutcome.otherError "boom") =
      hostMissingResult ∧
    invoke_search demoNoEnv demoLoads (some "not json") (ApiOutcome.success []) =
      hostMissingResult ∧
    invoke demoGetenv (Cmd.collectionCreate "jobs") (ApiOutcome.success ()) =
      runCmd (Cmd.collectionCreate "jobs") (ApiOutcome.success ()) :=
  ⟨(c5_missing_host_fails_fast demoNoEnv demoGetenv "http://localhost:8000" rfl rfl).1
      (Cmd.devicesGet "123456789012345") (ApiOutcome.otherError "boom"),
    (c5_missing_host_fails_fast demoNoEnv demoGetenv "http://localhost:8000" rfl rfl).2.1
      demoLoads (some "not json") (ApiOutcome.success []),
    (c5_missing_host_fails_fast demoNoEnv demoGetenv "http://localhost:8000" rfl rfl).2.2.2.2
      (Cmd.collectionCreate "jobs") (ApiOutcome.success ())⟩

/-- C7: `index create <collection> --key JSON --unique true` with the key
string `{"name":"ASCENDING"}` submits exactly one request, with `unique`
equal to `true` and `key` equal to the parsed object
`{"name": "ASCENDING"}`. -/
theorem c7_index_create_request
    (getenv : String → Option String) (host : String)
    (henv : getenv "API_CLIENT_HOST" = some host)
    (loads : String → Option Json)
    (hk : loads "\x7b\"name\":\"ASCENDING\"\x7d" = some (Json.obj [("name", Json.str "ASCENDING")]))
    (name : String) (o : ApiOutcome Unit) :
    (invoke_index_create getenv loads name "\x7b\"name\":\"ASCENDING\"\x7d" true o).calls =
      [ReqData.postCollectionsIndex name
        { key := Json.obj [("name", Json.str "ASCENDING")], unique := true }] := by
  cases o <;>
    simp [invoke_index_create, cliStart, henv, json_loads_callback, hk,
      run_create_collection_index]

/-- Witness for C7 on a concrete collection and a successful call. -/
theorem c7_index_create_request_witness :
    (invoke_index_create demoGetenv demoLoads "jobs" "\x7b\"name\":\"ASCENDING\"\x7d" true
        (ApiOutcome.success ())).calls =
      [ReqData.postCollectionsIndex "jobs"
        { key := Json.obj [("name", Json.str "ASCENDING")], unique := true }] :=
  c7_index_create_request demoGetenv "http://localhost:8000" rfl demoLoads rfl "jobs"
    (ApiOutcome.success ())

/-- C8: `validator update` sends validation level `strict` when
`--validation-level` is omitted and validation action `error` when
`--validation-action` is omitted; supplied values and the parsed validator
document are passed through unchanged. -/
theorem c8_validator_update_defaults
    (getenv : String → Option String) (host : String)
    (henv : getenv "API_CLIENT_HOST" = some host)
    (loads : String → Option Json) (vs : String) (v : Json)
    (hv : loads vs = some v)
    (name lvl act : String) (o o2 : ApiOutcome Unit) :
    (invoke_validator_update getenv loads name vs none none o).calls =
      [ReqData.putValidator name
        { validator := v, validation_level := "strict", validation_action := "error" }] ∧
    (invoke_validator_update getenv loads name vs (some lvl) (some act) o2).calls =
      [ReqData.putValidator name
        { validator := v, validation_level := lvl, validation_action := act }] := by
  constructor
  · cases o <;>
      simp [invoke_validator_update, cliStart, henv, json_loads_callback, hv,
        run_update_collection_validator]
  · cases o2 <;>
      simp [invoke_validator_update, cliStart, henv, json_loads_callback, hv,
        run_update_collection_validator]

/-- Witness for C8 on the concrete validator document
`{"fieldA": {"$type": "string"}}`, once with both options omitted and once
with explicit level `moderate` and action `warn`. -/
theorem c8_validator_update_defaults_witness :
    (invoke_validator_update demoGetenv demoLoads "jobs"
        "\x7b\"fieldA\": \x7b\"$type\": \"string\"\x7d\x7d" none none
        (ApiOutcome.success ())).calls =
      [ReqData.putValidator "jobs"
        { validator := Json.obj [("fieldA", Json.obj [("$type", Json.str "string")])],
          validation_level := "strict", validation_action := "error" }] ∧
    (invoke_validator_update demoGetenv demoLoads "jobs"
        "\x7b\"fieldA\": \x7b\"$type\": \"string\"\x7d\x7d" (some "moderate") (some "warn")
        (ApiOutcome.success ())).calls =
      [ReqData.putValidator "jobs"
        { validator := Json.obj [("fieldA", Json.obj [("$type", Json.str "string")])],
          validation_level := "moderate", validation_action := "warn" }] :=
  c8_validator_update_defaults demoGetenv "http://localhost:8000" rfl demoLoads
    "\x7b\"fieldA\": \x7b\"$type\": \"string\"\x7d\x7d"
    (Json.obj [("fieldA", Json.obj [("$type", Json.str "string")])]) rfl
    "jobs" "moderate" "warn" (ApiOutcome.success ()) (ApiOutcome.success ())

/-- C2 counterexample: on a concrete 404 with an error body, the failure
output of `devices get` is the status/reason line on STANDARD OUTPUT
(`print_error`'s first `secho` passes no `err=True`) followed by the
pretty-printed structured body on the error stream — the two lines do not
both go to the error stream. -/
theorem c2_counterexample_status_line_on_stdout :
    (runCmd (Cmd.devicesGet "123456789012345") (ApiOutcome.apiError demoE404)).exitCode = 1 ∧
    (runCmd (Cmd.devicesGet "123456789012345") (ApiOutcome.apiError demoE404)).events =
      [(OutStream.stdout, Out.text "Getting details for device with IMEI: 123456789012345"),
       (OutStream.stdout, Out.text "Error: 404 Not Found"),
       (OutStream.stderr, Out.jsonPretty 4
         (Json.obj [("error",
           Json.obj [("code", Json.num 404), ("message", Json.str "Device not found")])]))] ∧
    OutStream.stdout ≠ OutStream.stderr :=
  ⟨rfl, rfl, by decide⟩

/-- C2 amended: whenever a devices-CLI command fails with a typed API
error carrying a body, the failure output consists of the
status-code-and-reason line written to STANDARD OUTPUT followed by the
structured error body as pretty-printed JSON written to the error stream,
the process exits with code 1, and no success message is mixed in (the
only other output is the command's single progress line).  (The MongoDB
CLI reports API errors differently: one combined line on the error
stream.) -/
theorem c2_devices_failure_output
    (c : Cmd) (hc : c.isDevices = true)
    (e : ApiExceptionData) (b : List (String × Json)) (hb : e.body = some b) :
    (runCmd c (ApiOutcome.apiError e)).exitCode = 1 ∧
    ((runCmd c (ApiOutcome.apiError e)).calls ≠ [] →
      ∃ progress, (runCmd c (ApiOutcome.apiError e)).events =
        [(OutStream.stdout, Out.text progress),
         (OutStream.stdout, Out.text (statusLine e)),
         (OutStream.stderr, Out.jsonPretty 4 (errorBodyDump b))]) := by
  cases c with
  | devicesCreate imei =>
    refine ⟨rfl, fun _ => ⟨"Attempting to create device with IMEI: " ++ imei, ?_⟩⟩
    simp [runCmd, run_create_device, print_error, hb]
  | devicesGet imei =>
    refine ⟨rfl, fun _ => ⟨"Getting details for device with IMEI: " ++ imei, ?_⟩⟩
    simp [runCmd, run_get_device, print_error, hb]
  | devicesDelete imei =>
    refine ⟨rfl, fun _ => ⟨"Attempting to delete device with IMEI: " ++ imei, ?_⟩⟩
    simp [runCmd, run_delete_device, print_error, hb]
  | devicesSearch filter =>
    cases hbuild : buildSearchRequest filter with
    | error pe =>
      have hcalls : (runCmd (Cmd.devicesSearch filter) (ApiOutcome.apiError e)).calls = [] := by
        simp [runCmd, run_search_devices, hbuild]
      refine ⟨?_, fun hne => absurd hcalls hne⟩
      simp [runCmd, run_search_devices, hbuild]
    | ok req =>
      refine ⟨?_, fun _ => ⟨"Searching for devices...", ?_⟩⟩
      · simp [runCmd, run_search_devices, hbuild]
      · simp [runCmd, run_search_devices, hbuild, print_error, hb]
  | collectionCreate name => simp [Cmd.isDevices] at hc
  | collectionDelete name => simp [Cmd.isDevices] at hc
  | indexGet name => simp [Cmd.isDevices] at hc
  | indexCreate name key unique => simp [Cmd.isDevices] at hc
  | indexDelete name idxName => simp [Cmd.isDevices] at hc
  | validatorGet name => simp [Cmd.isDevices] at hc
  | validatorUpdate name v lvl act => simp [Cmd.isDevices] at hc
  | validatorSummary name => simp [Cmd.isDevices] at hc

/-- Witness for C2 on `devices create` failing with the concrete 404. -/
theorem c2_devices_failure_output_witness :
    (runCmd (Cmd.devicesCreate "490154203237518") (ApiOutcome.apiError demoE404)).exitCode = 1 ∧
    ∃ progress, (runCmd (Cmd.devicesCreate "490154203237518") (ApiOutcome.apiError demoE404)).events =
      [(OutStream.stdout, Out.text progress),
       (OutStream.stdout, Out.text (statusLine demoE404)),
       (OutStream.stderr, Out.jsonPretty 4 (errorBodyDump [("error",
         Json.obj [("code", Json.num 404), ("message", Json.str "Device not found")])]))] :=
  ⟨(c2_devices_failure_output (Cmd.devicesCreate "490154203237518") rfl demoE404
      [("error", Json.obj [("code", Json.num 404), ("message", Json.str "Device not found")])]
      rfl).1,
    (c2_devices_failure_output (Cmd.devicesCreate "490154203237518") rfl demoE404
      [("error", Json.obj [("code", Json.num 404), ("message", Json.str "Device not found")])]
      rfl).2 (by simp [runCmd, run_create_device])⟩

/-- C4: every subcommand of both CLIs catches a typed API exception and
exits 1, and catches any other exception and exits 1 — no subcommand
propagates with a different exit status; when the call was made, the API
error surfaces through the respective CLI's formatter (`print_error` on
the devices CLI, the combined error line with `str(e)` on the MongoDB
CLI) and the unexpected error surfaces as that CLI's message line on the
error stream, appended after the output so far. -/
theorem c4_every_subcommand_catches_and_exits_one
    (c : Cmd) (e : ApiExceptionData) (m : String) :
    (runCmd c (ApiOutcome.apiError e)).exitCode = 1 ∧
    (runCmd c (ApiOutcome.otherError m)).exitCode = 1 ∧
    ((runCmd c (ApiOutcome.apiError e)).calls ≠ [] →
      (∃ pre, (runCmd c (ApiOutcome.apiError e)).events = pre ++ print_error e) ∨
      (∃ pre pfx, (runCmd c (ApiOutcome.apiError e)).events =
        pre ++ [(OutStream.stderr, Out.excText pfx e)])) ∧
    ((runCmd c (ApiOutcome.otherError m)).calls ≠ [] →
      (∃ pre, (runCmd c (ApiOutcome.otherError m)).events =
        pre ++ [(OutStream.stderr, Out.text ("Unexpected error: " ++ m))]) ∨
      (∃ pre, (runCmd c (ApiOutcome.otherError m)).events =
        pre ++ [(OutStream.stderr, Out.text ("An unexpected error occurred: " ++ m))])) := by
  cases c with
  | devicesCreate imei =>
    exact ⟨rfl, rfl, fun _ => Or.inl ⟨_, rfl⟩, fun _ => Or.inl ⟨_, rfl⟩⟩
  | devicesGet imei =>
    exact ⟨rfl, rfl, fun _ => Or.inl ⟨_, rfl⟩, fun _ => Or.inl ⟨_, rfl⟩⟩
  | devicesDelete imei =>
    exact ⟨rfl, rfl, fun _ => Or.inl ⟨_, rfl⟩, fun _ => Or.inl ⟨_, rfl⟩⟩
  | devicesSearch filter =>
    cases hbuild : buildSearchRequest filter with
    | error pe =>
      have hc1 : (runCmd (Cmd.devicesSearch filter) (ApiOutcome.apiError e)).calls = [] := by
        simp [runCmd, run_search_devices, hbuild]
      have hc2 : (runCmd (Cmd.devicesSearch filter) (ApiOutcome.otherError m)).calls = [] := by
        simp [runCmd, run_search_devices, hbuild]
      refine ⟨?_, ?_, fun hne => absurd hc1 hne, fun hne => absurd hc2 hne⟩
      · simp [runCmd, run_search_devices, hbuild]
      · simp [runCmd, run_search_devices, hbuild]
    | ok req =>
      refine ⟨?_, ?_,
        fun _ => Or.inl ⟨[(OutStream.stdout, Out.text "Searching for devices...")], ?_⟩,
        fun _ => Or.inl ⟨[(OutStream.stdout, Out.text "Searching for devices...")], ?_⟩⟩
      · simp [runCmd, run_search_devices, hbuild]
      · simp [runCmd, run_search_devices, hbuild]
      · simp [runCmd, run_search_devices, hbuild]
      · simp [runCmd, run_search_devices, hbuild]
  | collectionCreate name =>
    exact ⟨rfl, rfl, fun _ => Or.inr ⟨_, _, rfl⟩, fun _ => Or.inr ⟨_, rfl⟩⟩
  | collectionDelete name =>
    exact ⟨rfl, rfl, fun _ => Or.inr ⟨_, _, rfl⟩, fun _ => Or.inr ⟨_, rfl⟩⟩
  | indexGet name =>
    exact ⟨rfl, rfl, fun _ => Or.inr ⟨_, _, rfl⟩, fun _ => Or.inr ⟨_, rfl⟩⟩
  | indexCreate name key unique =>
    exact ⟨rfl, rfl, fun _ => Or.inr ⟨_, _, rfl⟩, fun _ => Or.inr ⟨_, rfl⟩⟩
  | indexDelete name idxName =>
    exact ⟨rfl, rfl, fun _ => Or.inr ⟨_, _, rfl⟩, fun _ => Or.inr ⟨_, rfl⟩⟩
  | validatorGet name =>
    exact ⟨rfl, rfl, fun _ => Or.inr ⟨_, _, rfl⟩, fun _ => Or.inr ⟨_, rfl⟩⟩
  | validatorUpdate name v lvl act =>
    exact ⟨rfl, rfl, fun _ => Or.inr ⟨_, _, rfl⟩, fun _ => Or.inr ⟨_, rfl⟩⟩
  | validatorSummary name =>
    exact ⟨rfl, rfl, fun _ => Or.inr ⟨_, _, rfl⟩, fun _ => Or.inr ⟨_, rfl⟩⟩

/-- Witness for C4 on `collection create` with the concrete 404 and a
concrete unexpected error. -/
theorem c4_every_subcommand_catches_and_exits_one_witness :
    (runCmd (Cmd.collectionCreate "jobs") (ApiOutcome.apiError demoE404)).exitCode = 1 ∧
    (runCmd (Cmd.collectionCreate "jobs") (ApiOutcome.otherError "boom")).exitCode = 1 ∧
    ((∃ pre, (runCmd (Cmd.collectionCreate "jobs") (ApiOutcome.apiError demoE404)).events =
        pre ++ print_error demoE404) ∨
      (∃ pre pfx, (runCmd (Cmd.collectionCreate "jobs") (ApiOutcome.apiError demoE404)).events =
        pre ++ [(OutStream.stderr, Out.excText pfx demoE404)])) ∧
    ((∃ pre, (runCmd (Cmd.collectionCreate "jobs") (ApiOutcome.otherError "boom")).events =
        pre ++ [(OutStream.stderr, Out.text ("Unexpected error: " ++ "boom"))]) ∨
      (∃ pre, (runCmd (Cmd.collectionCreate "jobs") (ApiOutcome.otherError "boom")).events =
        pre ++ [(OutStream.stderr, Out.text ("An unexpected error occurred: " ++ "boom"))])) :=
  ⟨(c4_every_subcommand_catches_and_exits_one (Cmd.collectionCreate "jobs") demoE404 "boom").1,
    (c4_every_subcommand_catches_and_exits_one (Cmd.collectionCreate "jobs") demoE404 "boom").2.1,
    (c4_every_subcommand_catches_and_exits_one (Cmd.collectionCreate "jobs") demoE404 "boom").2.2.1
      (by simp [runCmd, run_create_collection]),
    (c4_every_subcommand_catches_and_exits_one (Cmd.collectionCreate "jobs") demoE404 "boom").2.2.2
      (by simp [runCmd, run_create_collection])⟩

end IotJobsCli
